import Mathlib

/-!
# DeforaOS VPN: the interposition library `tools/vpn.c`

A shallow embedding of `tools/vpn.c`: the two process-wide tables
(`_vpn_clients`, `_vpn_clients_fd`), the descriptor offset, the table
helpers and the six overridden entry points.

Conventions of the embedding.

* C `int` and `int32_t` values are `Int`; a value stored back into such a
  variable after arithmetic goes through `toInt32`.  `size_t` values are
  `Nat`; a conversion to `size_t` goes through `toSizeT`.
* A pointer `AppClient *` is an `Option AppClient`, `none` being `NULL`.
  Buffers and socket addresses handed through to other functions are
  kept as their addresses (`Nat`).
* Everything outside the file (the C runtime, libSystem, the RPC
  transport, the error table of `common.c`) is a field of `Env`.
* Every overridden entry point returns its result, the new state and a
  trace (`Outcome`).  The trace lists, in order, the calls of the original
  primitives, the remote calls, the calls of the error translation, the
  copies into the caller's buffer and the calls of `string_delete`; the
  other collaborators only show through their results in `Env`.
* `none` stands for a process that does not go on: `exit(1)` inside
  `_libvpn_init`, or a `string_delete` that does not return (it is handed
  the pointer that `getenv` returned).
* `buffer_delete` releases the `Buffer` that `buffer_new` made in the same
  call and is left out.
-/

namespace VPN

/-! ## Machine integers -/

/-- The largest `int`. -/
def INT_MAX : Int := 2147483647

/-- The smallest `int`. -/
def INT_MIN : Int := -2147483648

/-- Conversion of an integer to `int32_t` (two's complement). -/
def toInt32 (x : Int) : Int := (x + 2147483648) % 4294967296 - 2147483648

/-- Conversion of an integer to a 64-bit `size_t`. -/
def toSizeT (x : Int) : Nat := (x % 18446744073709551616).toNat

/-! ## Types -/

/-- An `AppClient` object, identified by its address. -/
abbrev AppClient := Nat

/-- The struct `VPNAppClient`. -/
structure VPNAppClient where
  name : Option String
  appclient : Option AppClient
deriving DecidableEq

/-- The struct `VPNAppClientFD`. -/
structure VPNAppClientFD where
  appclient : Option AppClient
  fd : Int
deriving DecidableEq

/-- A remote call issued through `appclient_call`: the method name with
its arguments. -/
inductive Rpc where
  | close (fd : Int)
  | connect (fd : Int)
  | recv (fd : Int) (count : Nat) (flags : Int)
  | send (fd : Int) (buf : Nat) (count : Nat) (flags : Int)
deriving DecidableEq

/-- An external call made by an overridden entry point. -/
inductive Event where
  | old_close (fd : Int)
  | old_connect (fd : Int) (name : Nat) (namelen : Nat)
  | old_read (fd : Int) (buf : Nat) (count : Nat)
  | old_recv (fd : Int) (buf : Nat) (count : Nat) (flags : Int)
  | old_send (fd : Int) (buf : Nat) (count : Nat) (flags : Int)
  | old_write (fd : Int) (buf : Nat) (count : Nat)
  | appclient_call (appclient : AppClient) (call : Rpc)
  | _vpn_errno (code : Int)
  | memcpy (buf : Nat) (n : Int)
  | string_delete (string : String)
deriving DecidableEq

/-- The collaborators of the library. -/
structure Env where
  /-- Whether `dlopen` of the given path succeeds. -/
  dlopen : String → Bool
  /-- Whether `dlsym` of the given symbol succeeds. -/
  dlsym : String → Bool
  /-- The hard limit `rlim_max` when `getrlimit(RLIMIT_NOFILE)` returns 0. -/
  getrlimit : Option Nat
  /-- The value of an environment variable. -/
  getenv : String → Option String
  /-- Whether `realloc` to the given number of elements succeeds. -/
  realloc : Nat → Bool
  /-- The value found in the name field of a freshly reallocated
  `VPNAppClient` that was not written yet. -/
  indeterminate : Option String
  /-- Result of `appclient_new(NULL, app, name)`. -/
  appclient_new : String → String → Option AppClient
  /-- Whether `string_delete(string)` returns to its caller. -/
  string_delete : String → Bool
  /-- Result of `appclient_call`: `none` when it returns non-zero, else
  the value stored in `ret`. -/
  appclient_call : AppClient → Rpc → Option Int
  /-- Whether `buffer_new` succeeds. -/
  buffer_new : Bool
  /-- Result of `_vpn_errno(_vpn_error, _vpn_error_cnt, code, 1)`. -/
  _vpn_errno : Int → Int
  old_close : Int → Int
  old_connect : Int → Nat → Nat → Int
  old_read : Int → Nat → Nat → Int
  old_recv : Int → Nat → Nat → Int → Int
  old_send : Int → Nat → Nat → Int → Int
  old_write : Int → Nat → Nat → Int

/-- The static variables of the library. -/
structure State where
  /-- Whether the static `hdl` of `_libvpn_init` is non-`NULL`. -/
  hdl : Bool
  _vpn_offset : Int
  _vpn_clients : List VPNAppClient
  _vpn_clients_fd : List VPNAppClientFD
deriving DecidableEq

/-- The state at program start. -/
def State.initial : State := ⟨false, 1024, [], []⟩

/-- What an overridden entry point did. -/
structure Outcome where
  ret : Int
  st : State
  trace : List Event
deriving DecidableEq

/-- The constant `APPINTERFACE`. -/
def APPINTERFACE : String := "VPN"

/-! ## Functions -/

/-- The function `_libvpn_init`, with `RLIMIT_NOFILE` defined; `none` is
`exit(1)`.  The comparison of `_vpn_offset` with `rlim_max` is made in the
unsigned type of `rlim_max`. -/
def _libvpn_init (env : Env) (st : State) : Option State :=
  if st.hdl then some st
  else if !(env.dlopen "/lib/libc.so" || env.dlopen "/lib/libc.so.6") then none
  else if !env.dlsym "close" || !env.dlsym "connect" || !env.dlsym "read"
      || !env.dlsym "recv" || !env.dlsym "send" || !env.dlsym "write" then none
  else
    match env.getrlimit with
    | some rlim_max =>
      if (rlim_max : Int) > INT_MAX then none
      else if (toSizeT st._vpn_offset : Int) < (rlim_max : Int) then
        some { st with hdl := true, _vpn_offset := toInt32 rlim_max }
      else some { st with hdl := true }
    | none => some { st with hdl := true }

/-- The function `_libvpn_get_remote_host`. -/
def _libvpn_get_remote_host (env : Env) (_name _namelen : Nat) : Option String :=
  env.getenv "APPSERVER_VPN"

/-- The function `_libvpn_get_remote_name`. -/
def _libvpn_get_remote_name (_name _namelen : Nat) (rname rnamelen : Option Nat) : Int :=
  if rname = none ∧ rnamelen = none then 0 else -1

/-- The function `_libvpn_is_remote`. -/
def _libvpn_is_remote (name namelen : Nat) : Nat :=
  if _libvpn_get_remote_name name namelen none none = 0 then 1 else 0

/-- The search loop of `_libvpn_get_appclient`: the `appclient` field of
the first entry with a non-`NULL` name equal to `host`. -/
def findClient (host : String) : List VPNAppClient → Option (Option AppClient)
  | [] => none
  | e :: es =>
    match e.name with
    | none => findClient host es
    | some n => if n = host then some e.appclient else findClient host es

/-- The function `_libvpn_get_appclient`: the returned pointer, the new
state and the calls of `string_delete` made; `none` when a call of
`string_delete` does not return. -/
def _libvpn_get_appclient (env : Env) (st : State) (name namelen : Nat) :
    Option (Option AppClient × State × List Event) :=
  match _libvpn_get_remote_host env name namelen with
  | none => some (none, st, [])
  | some host =>
    match findClient host st._vpn_clients with
    | some found =>
      if !env.string_delete host then none
      else some (found, st, [.string_delete host])
    | none =>
      if !env.realloc (st._vpn_clients.length + 1) then
        if !env.string_delete host then none
        else some (none, st, [.string_delete host])
      else
        match env.appclient_new APPINTERFACE host with
        | none =>
          if !env.string_delete host then none
          else
            some (none, { st with _vpn_clients :=
              st._vpn_clients ++ [⟨env.indeterminate, none⟩] }, [.string_delete host])
        | some c =>
          some (some c, { st with _vpn_clients :=
            st._vpn_clients ++ [⟨some host, some c⟩] }, [])

/-- The function `_libvpn_get_appclient_fd`: the returned pointer and the
value left in `*fd`.  The index is `(size_t)*fd - _vpn_offset`, and no
entry at that index is `i >= _vpn_clients_fd_cnt`. -/
def _libvpn_get_appclient_fd (st : State) (fd : Int) : Option AppClient × Int :=
  if fd < st._vpn_offset then (none, fd)
  else
    match st._vpn_clients_fd[toSizeT (fd - st._vpn_offset)]? with
    | none => (none, fd)
    | some e => (e.appclient, e.fd)

/-- The function `_libvpn_deregister_fd`: the returned value and the new
state. -/
def _libvpn_deregister_fd (st : State) (appclient : Option AppClient) (fd : Int) :
    Int × State :=
  if fd < 0 then (-1, st)
  else
    match st._vpn_clients_fd[toSizeT fd]? with
    | none => (-1, st)
    | some e =>
      if e.appclient ≠ appclient then (-1, st)
      else (0, { st with _vpn_clients_fd :=
        st._vpn_clients_fd.set (toSizeT fd) ⟨none, -1⟩ })

/-- The `for` loop of `_libvpn_register_fd`: the value of `i` at which it
stops, the index of the first entry with `fd < 0`, or the length of the
table when there is none. -/
def firstFree : List VPNAppClientFD → Nat
  | [] => 0
  | e :: es => if e.fd < 0 then 0 else firstFree es + 1

/-- The function `_libvpn_register_fd`: the returned value, the value left
in `*fd` and the new state. -/
def _libvpn_register_fd (env : Env) (st : State) (appclient : Option AppClient)
    (fd : Int) : Int × Int × State :=
  let i := firstFree st._vpn_clients_fd
  if i < st._vpn_clients_fd.length then
    (0, toInt32 (st._vpn_offset + i),
      { st with _vpn_clients_fd := st._vpn_clients_fd.set i ⟨appclient, fd⟩ })
  else if !env.realloc (i + 1) then (-1, fd, st)
  else
    (0, toInt32 (st._vpn_offset + i),
      { st with _vpn_clients_fd := st._vpn_clients_fd ++ [⟨appclient, fd⟩] })

/-- The overridden `close`. -/
def close (env : Env) (st : State) (fd : Int) : Option Outcome :=
  match _libvpn_init env st with
  | none => none
  | some st =>
    match _libvpn_get_appclient_fd st fd with
    | (none, fd) => some ⟨env.old_close fd, st, [.old_close fd]⟩
    | (some appclient, fd) =>
      match env.appclient_call appclient (.close fd) with
      | none => some ⟨-1, st, [.appclient_call appclient (.close fd)]⟩
      | some ret =>
        if ret ≠ 0 then
          some ⟨env._vpn_errno (toInt32 (-ret)), st,
            [.appclient_call appclient (.close fd), ._vpn_errno (toInt32 (-ret))]⟩
        else
          some ⟨ret, (_libvpn_deregister_fd st (some appclient) fd).2,
            [.appclient_call appclient (.close fd)]⟩

/-- The overridden `connect`. -/
def connect (env : Env) (st : State) (fd : Int) (name namelen : Nat) : Option Outcome :=
  match _libvpn_init env st with
  | none => none
  | some st =>
    if _libvpn_is_remote name namelen = 0 then
      some ⟨env.old_connect fd name namelen, st, [.old_connect fd name namelen]⟩
    else
      match _libvpn_get_appclient env st name namelen with
      | none => none
      | some (none, st, released) => some ⟨-1, st, released⟩
      | some (some appclient, st, released) =>
        match env.appclient_call appclient (.connect fd) with
        | none => some ⟨-1, st, released ++ [.appclient_call appclient (.connect fd)]⟩
        | some ret =>
          if ret < 0 then
            some ⟨env._vpn_errno (toInt32 (-ret)), st,
              released ++ [.appclient_call appclient (.connect fd),
                ._vpn_errno (toInt32 (-ret))]⟩
          else
            match _libvpn_register_fd env st (some appclient) ret with
            | (rc, ret, st) =>
              if rc ≠ 0 then
                some ⟨-1, st, released ++ [.appclient_call appclient (.connect fd),
                  .appclient_call appclient (.close ret)]⟩
              else
                some ⟨ret, st, released ++ [.appclient_call appclient (.connect fd)]⟩

/-- The overridden `read`. -/
def read (env : Env) (st : State) (fd : Int) (buf count : Nat) : Option Outcome :=
  match _libvpn_init env st with
  | none => none
  | some st =>
    match _libvpn_get_appclient_fd st fd with
    | (none, fd) => some ⟨env.old_read fd buf count, st, [.old_read fd buf count]⟩
    | (some appclient, fd) =>
      if !env.buffer_new then some ⟨-1, st, []⟩
      else
        match env.appclient_call appclient (.recv fd count 0) with
        | none => some ⟨-1, st, [.appclient_call appclient (.recv fd count 0)]⟩
        | some ret =>
          if ret < 0 then
            some ⟨env._vpn_errno (toInt32 (-ret)), st,
              [.appclient_call appclient (.recv fd count 0), ._vpn_errno (toInt32 (-ret))]⟩
          else if ret > 0 then
            some ⟨ret, st, [.appclient_call appclient (.recv fd count 0), .memcpy buf ret]⟩
          else some ⟨ret, st, [.appclient_call appclient (.recv fd count 0)]⟩

/-- The overridden `recv`. -/
def recv (env : Env) (st : State) (fd : Int) (buf count : Nat) (flags : Int) :
    Option Outcome :=
  match _libvpn_init env st with
  | none => none
  | some st =>
    match _libvpn_get_appclient_fd st fd with
    | (none, fd) => some ⟨env.old_read fd buf count, st, [.old_read fd buf count]⟩
    | (some appclient, fd) =>
      if !env.buffer_new then some ⟨-1, st, []⟩
      else
        match env.appclient_call appclient (.recv fd count flags) with
        | none => some ⟨-1, st, [.appclient_call appclient (.recv fd count flags)]⟩
        | some ret =>
          if ret < 0 then
            some ⟨env._vpn_errno (toInt32 (-ret)), st,
              [.appclient_call appclient (.recv fd count flags),
                ._vpn_errno (toInt32 (-ret))]⟩
          else if ret > 0 then
            some ⟨ret, st,
              [.appclient_call appclient (.recv fd count flags), .memcpy buf ret]⟩
          else some ⟨ret, st, [.appclient_call appclient (.recv fd count flags)]⟩

/-- The overridden `send`. -/
def send (env : Env) (st : State) (fd : Int) (buf count : Nat) (flags : Int) :
    Option Outcome :=
  match _libvpn_init env st with
  | none => none
  | some st =>
    match _libvpn_get_appclient_fd st fd with
    | (none, fd) => some ⟨env.old_write fd buf count, st, [.old_write fd buf count]⟩
    | (some appclient, fd) =>
      if !env.buffer_new then some ⟨-1, st, []⟩
      else
        match env.appclient_call appclient (.send fd buf count flags) with
        | none => some ⟨-1, st, [.appclient_call appclient (.send fd buf count flags)]⟩
        | some ret =>
          if ret < 0 then
            some ⟨env._vpn_errno (toInt32 (-ret)), st,
              [.appclient_call appclient (.send fd buf count flags),
                ._vpn_errno (toInt32 (-ret))]⟩
          else some ⟨ret, st, [.appclient_call appclient (.send fd buf count flags)]⟩

/-- The overridden `write`. -/
def write (env : Env) (st : State) (fd : Int) (buf count : Nat) : Option Outcome :=
  match _libvpn_init env st with
  | none => none
  | some st =>
    match _libvpn_get_appclient_fd st fd with
    | (none, fd) => some ⟨env.old_write fd buf count, st, [.old_write fd buf count]⟩
    | (some appclient, fd) =>
      if !env.buffer_new then some ⟨-1, st, []⟩
      else
        match env.appclient_call appclient (.send fd buf count 0) with
        | none => some ⟨-1, st, [.appclient_call appclient (.send fd buf count 0)]⟩
        | some ret =>
          if ret < 0 then
            some ⟨env._vpn_errno (toInt32 (-ret)), st,
              [.appclient_call appclient (.send fd buf count 0),
                ._vpn_errno (toInt32 (-ret))]⟩
          else some ⟨ret, st, [.appclient_call appclient (.send fd buf count 0)]⟩

/-! ## Table predicates -/

/-- Slot `i` of the table is free: it holds `remote_fd = -1`. -/
abbrev IsFree (tbl : List VPNAppClientFD) (i : Nat) : Prop :=
  tbl[i]?.map VPNAppClientFD.fd = some (-1)

/-- Slot `i` is the lowest free slot of the table. -/
abbrev IsLowestFree (tbl : List VPNAppClientFD) (i : Nat) : Prop :=
  IsFree tbl i ∧ ∀ j, j < i → ¬ IsFree tbl j

/-- Every slot holds `-1` or a non-negative remote descriptor, as in every
table built by `connect` and `close`. -/
abbrev SlotsOk (tbl : List VPNAppClientFD) : Prop :=
  ∀ e ∈ tbl, e.fd = -1 ∨ 0 ≤ e.fd

/-! ## Sample collaborators -/

/-- A remote side that answers "connect" with the descriptor `fds fd`,
"close" with 0 and "recv" and "send" with the requested count. -/
def remoteStub (fds : Int → Int) : AppClient → Rpc → Option Int
  | _, .connect fd => some (fds fd)
  | _, .close _ => some 0
  | _, .recv _ count _ => some count
  | _, .send _ _ count _ => some count

/-- A remote side that answers every call with `r`. -/
def remoteConst (r : Int) : AppClient → Rpc → Option Int :=
  fun _ _ => some r

/-- A process environment with `APPSERVER_VPN=vpn1`: `rlim` is the hard
limit on open files, `rpc` the remote side, `newc` the result of
`appclient_new` and `mem` whether `realloc` succeeds.  Every call of
`string_delete` returns.  The original primitives return distinct
constants. -/
def sampleEnv (rlim : Option Nat) (rpc : AppClient → Rpc → Option Int)
    (newc : Option AppClient) (mem : Bool) : Env where
  dlopen := fun _ => true
  dlsym := fun _ => true
  getrlimit := rlim
  getenv := fun _ => some "vpn1"
  realloc := fun _ => mem
  indeterminate := none
  appclient_new := fun _ _ => newc
  string_delete := fun _ => true
  appclient_call := rpc
  buffer_new := true
  _vpn_errno := fun _ => -1
  old_close := fun _ => 100
  old_connect := fun _ _ _ => 101
  old_read := fun _ _ _ => 102
  old_recv := fun _ _ _ _ => 103
  old_send := fun _ _ _ _ => 104
  old_write := fun _ _ _ => 105

/-- An initialised process that has the host `vpn1` registered with the
client 1, with the given offset and descriptor table. -/
def sampleState (offset : Int) (tbl : List VPNAppClientFD) : State :=
  ⟨true, offset, [⟨some "vpn1", some 1⟩], tbl⟩

/-! ## Basic facts -/

theorem toInt32_of_range (x : Int) (h1 : INT_MIN ≤ x) (h2 : x ≤ INT_MAX) : toInt32 x = x := by
  unfold INT_MIN at h1
  unfold INT_MAX at h2
  unfold toInt32
  omega

theorem toSizeT_natCast (n : Nat) (h : n < 18446744073709551616) : toSizeT (n : Int) = n := by
  unfold toSizeT
  omega

theorem toSizeT_of_int32 (x : Int) (h1 : 0 ≤ x) (h2 : x ≤ INT_MAX) : toSizeT x = x.toNat := by
  unfold INT_MAX at h2
  unfold toSizeT
  omega

theorem firstFree_le_length (tbl : List VPNAppClientFD) : firstFree tbl ≤ tbl.length := by
  induction tbl with
  | nil => simp [firstFree]
  | cons e es ih =>
    unfold firstFree
    split
    · simp
    · simpa using ih

theorem firstFree_spec (tbl : List VPNAppClientFD) (h : firstFree tbl < tbl.length) :
    ∃ e, tbl[firstFree tbl]? = some e ∧ e.fd < 0 := by
  induction tbl with
  | nil => simp [firstFree] at h
  | cons e es ih =>
    unfold firstFree at h ⊢
    split
    · exact ⟨e, by simp, by assumption⟩
    · rename_i hneg
      rw [if_neg hneg] at h
      have h2 : firstFree es < es.length := by simpa using h
      simpa using ih h2

theorem firstFree_min (tbl : List VPNAppClientFD) (j : Nat) (e : VPNAppClientFD)
    (hj : j < firstFree tbl) (he : tbl[j]? = some e) : 0 ≤ e.fd := by
  induction tbl generalizing j with
  | nil => simp at he
  | cons x xs ih =>
    unfold firstFree at hj
    split at hj
    · omega
    · rename_i hneg
      cases j with
      | zero =>
        simp at he
        subst he
        omega
      | succ k =>
        simp at he
        exact ih k (by omega) he

theorem init_tables (env : Env) (st0 st : State) (h : _libvpn_init env st0 = some st) :
    st._vpn_clients = st0._vpn_clients ∧ st._vpn_clients_fd = st0._vpn_clients_fd ∧
      st.hdl = true := by
  unfold _libvpn_init at h
  split at h
  · rename_i hh
    simp at h
    subst h
    exact ⟨rfl, rfl, hh⟩
  · split at h
    · simp at h
    · split at h
      · simp at h
      · split at h
        · split at h
          · simp at h
          · split at h <;> (simp at h; subst h; exact ⟨rfl, rfl, rfl⟩)
        · simp at h
          subst h
          exact ⟨rfl, rfl, rfl⟩

theorem init_of_hdl (env : Env) (st : State) (h : st.hdl = true) :
    _libvpn_init env st = some st := by
  simp [_libvpn_init, h]

theorem neg_int32 (r : Int) (h1 : INT_MIN < r) (h2 : r ≤ INT_MAX) : toInt32 (-r) = -r := by
  unfold INT_MIN at h1
  unfold INT_MAX at h2
  unfold toInt32
  omega

theorem isFree_iff (tbl : List VPNAppClientFD) (i : Nat) :
    IsFree tbl i ↔ ∃ e, tbl[i]? = some e ∧ e.fd = -1 := by
  simp [IsFree, Option.map_eq_some']

theorem firstFree_le_of_neg (tbl : List VPNAppClientFD) (j : Nat) (e : VPNAppClientFD)
    (he : tbl[j]? = some e) (hneg : e.fd < 0) : firstFree tbl ≤ j := by
  by_contra hcon
  have := firstFree_min tbl j e (by omega) he
  omega

theorem firstFree_eq (tbl : List VPNAppClientFD) (i : Nat) (e : VPNAppClientFD)
    (he : tbl[i]? = some e) (hneg : e.fd < 0)
    (hlow : ∀ j x, j < i → tbl[j]? = some x → 0 ≤ x.fd) : firstFree tbl = i := by
  have hle := firstFree_le_of_neg tbl i e he hneg
  have hi : i < tbl.length := by
    rcases Nat.lt_or_ge i tbl.length with h | h
    · exact h
    · rw [List.getElem?_eq_none h] at he
      simp at he
  rcases Nat.lt_or_ge (firstFree tbl) i with hlt | hge
  · obtain ⟨x, hx, hxneg⟩ := firstFree_spec tbl (by omega)
    have := hlow _ x hlt hx
    omega
  · omega


/-! ## Invariants of the tables -/

theorem init_offset_range (env : Env) (st0 st : State)
    (h0 : 1024 ≤ st0._vpn_offset ∧ st0._vpn_offset ≤ INT_MAX)
    (hinit : _libvpn_init env st0 = some st) :
    1024 ≤ st._vpn_offset ∧ st._vpn_offset ≤ INT_MAX := by
  have hsz : (toSizeT st0._vpn_offset : Int) = st0._vpn_offset := by
    have := h0.2
    unfold INT_MAX at this
    unfold toSizeT
    omega
  unfold _libvpn_init at hinit
  split at hinit
  · simp at hinit
    subst hinit
    exact h0
  · split at hinit
    · simp at hinit
    · split at hinit
      · simp at hinit
      · split at hinit
        · rename_i rlim_max _
          split at hinit
          · simp at hinit
          · rename_i hle
            split at hinit
            · rename_i hlt
              simp at hinit
              subst hinit
              have hle2 : (rlim_max : Int) ≤ INT_MAX := by omega
              have : toInt32 (rlim_max : Int) = rlim_max :=
                toInt32_of_range _ (by unfold INT_MIN; omega) hle2
              simp only [this]
              omega
            · simp at hinit
              subst hinit
              exact h0
        · simp at hinit
          subst hinit
          exact h0

theorem slotsOk_set (tbl : List VPNAppClientFD) (i : Nat) (x : VPNAppClientFD)
    (hok : SlotsOk tbl) (hx : x.fd = -1 ∨ 0 ≤ x.fd) : SlotsOk (tbl.set i x) := by
  intro e he
  rcases List.mem_or_eq_of_mem_set he with h | h
  · exact hok e h
  · subst h
    exact hx

theorem slotsOk_deregister (st : State) (c : Option AppClient) (fd : Int)
    (hok : SlotsOk st._vpn_clients_fd) :
    SlotsOk (_libvpn_deregister_fd st c fd).2._vpn_clients_fd := by
  unfold _libvpn_deregister_fd
  split
  · exact hok
  · split
    · exact hok
    · split
      · exact hok
      · exact slotsOk_set _ _ _ hok (Or.inl rfl)

theorem slotsOk_register (env : Env) (st : State) (c : Option AppClient) (fd : Int)
    (hok : SlotsOk st._vpn_clients_fd) (hfd : 0 ≤ fd) :
    SlotsOk (_libvpn_register_fd env st c fd).2.2._vpn_clients_fd := by
  unfold _libvpn_register_fd
  simp only
  split
  · exact slotsOk_set _ _ _ hok (Or.inr hfd)
  · split
    · exact hok
    · intro e he
      simp only [List.mem_append, List.mem_singleton] at he
      rcases he with h | h
      · exact hok e h
      · subst h
        exact Or.inr hfd

theorem get_appclient_tables (env : Env) (st : State) (name namelen : Nat)
    (p : Option AppClient) (st1 : State) (released : List Event)
    (h : _libvpn_get_appclient env st name namelen = some (p, st1, released)) :
    st1._vpn_clients_fd = st._vpn_clients_fd ∧ st1._vpn_offset = st._vpn_offset := by
  unfold _libvpn_get_appclient at h
  split at h
  · simp at h
    obtain ⟨_, rfl, _⟩ := h
    exact ⟨rfl, rfl⟩
  · split at h
    · split at h
      · simp at h
      · simp at h
        obtain ⟨_, rfl, _⟩ := h
        exact ⟨rfl, rfl⟩
    · split at h
      · split at h
        · simp at h
        · simp at h
          obtain ⟨_, rfl, _⟩ := h
          exact ⟨rfl, rfl⟩
      · split at h
        · split at h
          · simp at h
          · simp at h
            obtain ⟨_, rfl, _⟩ := h
            exact ⟨rfl, rfl⟩
        · simp at h
          obtain ⟨_, rfl, _⟩ := h
          exact ⟨rfl, rfl⟩

theorem slotsOk_close (env : Env) (st0 : State) (fd : Int) (o : Outcome)
    (hok : SlotsOk st0._vpn_clients_fd) (h : close env st0 fd = some o) :
    SlotsOk o.st._vpn_clients_fd := by
  unfold close at h
  cases hinit : _libvpn_init env st0 with
  | none => simp [hinit] at h
  | some st =>
    have hst : SlotsOk st._vpn_clients_fd := by
      rw [(init_tables env st0 st hinit).2.1]
      exact hok
    simp only [hinit] at h
    split at h
    · simp at h
      subst h
      exact hst
    · split at h
      · simp at h
        subst h
        exact hst
      · split at h
        · simp at h
          subst h
          exact hst
        · simp at h
          subst h
          exact slotsOk_deregister _ _ _ hst

theorem slotsOk_connect (env : Env) (st0 : State) (fd : Int) (name namelen : Nat)
    (o : Outcome) (hok : SlotsOk st0._vpn_clients_fd)
    (h : connect env st0 fd name namelen = some o) :
    SlotsOk o.st._vpn_clients_fd := by
  unfold connect at h
  cases hinit : _libvpn_init env st0 with
  | none => simp [hinit] at h
  | some st =>
    have hst : SlotsOk st._vpn_clients_fd := by
      rw [(init_tables env st0 st hinit).2.1]
      exact hok
    simp only [hinit] at h
    split at h
    · simp at h
      subst h
      exact hst
    · split at h
      · simp at h
      · rename_i st1 released heq
        have hst1 : SlotsOk st1._vpn_clients_fd := by
          rw [(get_appclient_tables env st name namelen _ _ _ heq).1]
          exact hst
        simp at h
        subst h
        exact hst1
      · rename_i c st1 released heq
        have hst1 : SlotsOk st1._vpn_clients_fd := by
          rw [(get_appclient_tables env st name namelen _ _ _ heq).1]
          exact hst
        split at h
        · simp at h
          subst h
          exact hst1
        · rename_i ret _
          split at h
          · simp at h
            subst h
            exact hst1
          · rename_i hge
            have hreg := slotsOk_register env st1 (some c) ret hst1 (by omega)
            split at h
            · simp at h
              subst h
              exact hreg
            · simp at h
              subst h
              exact hreg

theorem get_appclient_null_unchanged (env : Env) (st : State) (name namelen : Nat)
    (p : Option AppClient) (st1 : State) (released : List Event)
    (h : env.getenv "APPSERVER_VPN" = none ∨
      ∃ host, env.getenv "APPSERVER_VPN" = some host ∧
        findClient host st._vpn_clients = none ∧
        env.realloc (st._vpn_clients.length + 1) = false)
    (hret : _libvpn_get_appclient env st name namelen = some (p, st1, released)) :
    p = none ∧ st1 = st := by
  unfold _libvpn_get_appclient _libvpn_get_remote_host at hret
  rcases h with h | ⟨host, hg, h1, h2⟩
  · simp [h] at hret
    exact ⟨hret.1.symm, hret.2.1.symm⟩
  · simp [hg, h1, h2] at hret
    exact ⟨hret.2.1.symm, hret.2.2.1.symm⟩

theorem get_appclient_released (env : Env) (st : State) (name namelen : Nat)
    (p : Option AppClient) (st1 : State) (released : List Event)
    (h : _libvpn_get_appclient env st name namelen = some (p, st1, released)) :
    ∀ x, Event._vpn_errno x ∉ released := by
  unfold _libvpn_get_appclient at h
  split at h
  · simp at h
    obtain ⟨_, _, rfl⟩ := h
    simp
  · split at h
    · split at h
      · simp at h
      · simp at h
        obtain ⟨_, _, rfl⟩ := h
        simp
    · split at h
      · split at h
        · simp at h
        · simp at h
          obtain ⟨_, _, rfl⟩ := h
          simp
      · split at h
        · split at h
          · simp at h
          · simp at h
            obtain ⟨_, _, rfl⟩ := h
            simp
        · simp at h
          obtain ⟨_, _, rfl⟩ := h
          simp

/-- The five entry points that test `ret < 0`: when the remote call
completes with the `int32_t` result `r` other than `INT_MIN`, the error
translation is called exactly when `r < 0`, with the positive code `-r`,
and a result `r >= 0` is the success value. -/
theorem errno_consulted_siblings (env : Env) (st0 st : State) (r : Int)
    (hinit : _libvpn_init env st0 = some st) (hr : INT_MIN < r ∧ r ≤ INT_MAX) :
    (∀ (fd : Int) (name namelen : Nat) (c : AppClient) (st1 : State)
        (released : List Event),
      _libvpn_get_appclient env st name namelen = some (some c, st1, released) →
      env.appclient_call c (.connect fd) = some r →
      ∃ o, connect env st0 fd name namelen = some o ∧
        (∀ x, Event._vpn_errno x ∈ o.trace ↔ (r < 0 ∧ x = -r)) ∧
        (0 ≤ r → o.st = (_libvpn_register_fd env st1 (some c) r).2.2)) ∧
    (∀ (fd : Int) (buf count : Nat) (c : AppClient) (rfd : Int),
      _libvpn_get_appclient_fd st fd = (some c, rfd) →
      env.buffer_new = true →
      env.appclient_call c (.recv rfd count 0) = some r →
      ∃ o, read env st0 fd buf count = some o ∧
        (∀ x, Event._vpn_errno x ∈ o.trace ↔ (r < 0 ∧ x = -r)) ∧
        (0 ≤ r → o.ret = r)) ∧
    (∀ (fd : Int) (buf count : Nat) (flags : Int) (c : AppClient) (rfd : Int),
      _libvpn_get_appclient_fd st fd = (some c, rfd) →
      env.buffer_new = true →
      env.appclient_call c (.recv rfd count flags) = some r →
      ∃ o, recv env st0 fd buf count flags = some o ∧
        (∀ x, Event._vpn_errno x ∈ o.trace ↔ (r < 0 ∧ x = -r)) ∧
        (0 ≤ r → o.ret = r)) ∧
    (∀ (fd : Int) (buf count : Nat) (flags : Int) (c : AppClient) (rfd : Int),
      _libvpn_get_appclient_fd st fd = (some c, rfd) →
      env.buffer_new = true →
      env.appclient_call c (.send rfd buf count flags) = some r →
      ∃ o, send env st0 fd buf count flags = some o ∧
        (∀ x, Event._vpn_errno x ∈ o.trace ↔ (r < 0 ∧ x = -r)) ∧
        (0 ≤ r → o.ret = r)) ∧
    (∀ (fd : Int) (buf count : Nat) (c : AppClient) (rfd : Int),
      _libvpn_get_appclient_fd st fd = (some c, rfd) →
      env.buffer_new = true →
      env.appclient_call c (.send rfd buf count 0) = some r →
      ∃ o, write env st0 fd buf count = some o ∧
        (∀ x, Event._vpn_errno x ∈ o.trace ↔ (r < 0 ∧ x = -r)) ∧
        (0 ≤ r → o.ret = r)) := by
  have hneg := neg_int32 r hr.1 hr.2
  refine ⟨?_, ?_, ?_, ?_, ?_⟩
  · intro fd name namelen c st1 released hcl hcall
    have hrem : _libvpn_is_remote name namelen ≠ 0 := by
      simp [_libvpn_is_remote, _libvpn_get_remote_name]
    have hrel := get_appclient_released env st name namelen _ _ _ hcl
    by_cases h0 : r < 0
    · simp [connect, hinit, hrem, hcl, hcall, h0, hneg, hrel]
    · have h1 : 0 ≤ r := by omega
      simp only [connect, hinit, hrem, hcl, hcall, h0, if_false]
      split
      · simp [h0, hrel]
      · simp [h0, hrel]
  · intro fd buf count c rfd hres hbuf hcall
    by_cases h0 : r < 0
    · simp [read, hinit, hres, hbuf, hcall, h0, hneg]
    · by_cases h1 : r > 0
      · simp [read, hinit, hres, hbuf, hcall, h0, h1]
      · simp [read, hinit, hres, hbuf, hcall, h0, h1]
  · intro fd buf count flags c rfd hres hbuf hcall
    by_cases h0 : r < 0
    · simp [recv, hinit, hres, hbuf, hcall, h0, hneg]
    · by_cases h1 : r > 0
      · simp [recv, hinit, hres, hbuf, hcall, h0, h1]
      · simp [recv, hinit, hres, hbuf, hcall, h0, h1]
  · intro fd buf count flags c rfd hres hbuf hcall
    by_cases h0 : r < 0
    · simp [send, hinit, hres, hbuf, hcall, h0, hneg]
    · simp [send, hinit, hres, hbuf, hcall, h0]
  · intro fd buf count c rfd hres hbuf hcall
    by_cases h0 : r < 0
    · simp [write, hinit, hres, hbuf, hcall, h0, hneg]
    · simp [write, hinit, hres, hbuf, hcall, h0]


/-! ## Claims -/

/-- Claim C1, evaluated where it fails.  With offset 1024 a remote connect
answered with the remote descriptor 5 fills slot 0 and returns 1024.  Then
`close(1024)` issues the remote close of 5, which reports 0, and hands the
remote descriptor 5 (left in `fd` by the lookup) to `_libvpn_deregister_fd`
as the slot index; 5 is out of range, so slot 0 stays owned and
`resolve(1024)` still finds client 1 and descriptor 5. -/
theorem close_leaves_slot_owned :
    connect (sampleEnv none (remoteStub fun _ => 5) (some 1) true) State.initial 3 0 0 =
      some ⟨1024, sampleState 1024 [⟨some 1, 5⟩], [.appclient_call 1 (.connect 3)]⟩ ∧
    close (sampleEnv none (remoteStub fun _ => 5) (some 1) true)
        (sampleState 1024 [⟨some 1, 5⟩]) 1024 =
      some ⟨0, sampleState 1024 [⟨some 1, 5⟩], [.appclient_call 1 (.close 5)]⟩ ∧
    _libvpn_get_appclient_fd (sampleState 1024 [⟨some 1, 5⟩]) 1024 = (some 1, 5) := by
  decide

/-- Claim C2 as amended: when `register(client, rfd)` succeeds with the
virtual descriptor `v`, and the offset plus the index of the chosen slot
(the first free slot, else the table length) does not exceed `INT_MAX`,
then `v >= offset` and `resolve(v)` on the new table yields exactly
`(client, rfd)`. -/
theorem register_then_resolve (env : Env) (st st' : State) (client : AppClient)
    (rfd v : Int) (hoff : INT_MIN ≤ st._vpn_offset)
    (hfit : st._vpn_offset + firstFree st._vpn_clients_fd ≤ INT_MAX)
    (hreg : _libvpn_register_fd env st (some client) rfd = (0, v, st')) :
    st._vpn_offset ≤ v ∧ _libvpn_get_appclient_fd st' v = (some client, rfd) := by
  have hv : toInt32 (st._vpn_offset + firstFree st._vpn_clients_fd) =
      st._vpn_offset + firstFree st._vpn_clients_fd :=
    toInt32_of_range _ (by omega) hfit
  have hidx : toSizeT ((firstFree st._vpn_clients_fd : Nat) : Int) =
      firstFree st._vpn_clients_fd := by
    apply toSizeT_natCast
    unfold INT_MIN at hoff
    unfold INT_MAX at hfit
    omega
  unfold _libvpn_register_fd at hreg
  simp only [hv] at hreg
  split at hreg
  · rename_i hlt
    simp only [Prod.mk.injEq, true_and] at hreg
    obtain ⟨rfl, rfl⟩ := hreg
    refine ⟨by omega, ?_⟩
    unfold _libvpn_get_appclient_fd
    simp only [add_sub_cancel_left, hidx]
    rw [if_neg (by omega), List.getElem?_set_self hlt]
  · rename_i hge
    split at hreg
    · simp at hreg
    · simp only [Prod.mk.injEq, true_and] at hreg
      obtain ⟨rfl, rfl⟩ := hreg
      refine ⟨by omega, ?_⟩
      have hlen : firstFree st._vpn_clients_fd = st._vpn_clients_fd.length :=
        Nat.le_antisymm (firstFree_le_length _) (by omega)
      unfold _libvpn_get_appclient_fd
      simp only [add_sub_cancel_left, hidx]
      rw [if_neg (by omega), hlen]
      simp

/-- Claim C2 at a concrete table: offset 1024, slot 0 owned, client 2
registers the remote descriptor 9 and gets 1025, which resolves to
`(2, 9)`. -/
theorem register_then_resolve_witness :
    (INT_MIN ≤ (sampleState 1024 [⟨some 1, 5⟩])._vpn_offset ∧
      (sampleState 1024 [⟨some 1, 5⟩])._vpn_offset +
        firstFree (sampleState 1024 [⟨some 1, 5⟩])._vpn_clients_fd ≤ INT_MAX ∧
      _libvpn_register_fd (sampleEnv none (remoteStub id) (some 1) true)
        (sampleState 1024 [⟨some 1, 5⟩]) (some 2) 9 =
        (0, 1025, sampleState 1024 [⟨some 1, 5⟩, ⟨some 2, 9⟩])) ∧
    ((sampleState 1024 [⟨some 1, 5⟩])._vpn_offset ≤ 1025 ∧
      _libvpn_get_appclient_fd (sampleState 1024 [⟨some 1, 5⟩, ⟨some 2, 9⟩]) 1025 =
        (some 2, 9)) :=
  ⟨⟨by decide, by decide, by decide⟩,
    register_then_resolve (sampleEnv none (remoteStub id) (some 1) true)
      (sampleState 1024 [⟨some 1, 5⟩]) (sampleState 1024 [⟨some 1, 5⟩, ⟨some 2, 9⟩])
      2 9 1025 (by decide) (by decide) (by decide)⟩

/-- Claim C2 as stated fails when the sum leaves the range of `int32_t`:
with offset `INT_MAX` and slot 0 owned, `register(2, 9)` succeeds in slot 1
and returns `INT_MAX + 1` converted to `int32_t`, that is `INT_MIN`, which is
below the offset and which `resolve` reports as not found. -/
theorem register_then_resolve_wraps :
    _libvpn_register_fd (sampleEnv (some 2147483647) (remoteStub id) (some 1) true)
        (sampleState 2147483647 [⟨some 1, 7⟩]) (some 2) 9 =
      (0, -2147483648, sampleState 2147483647 [⟨some 1, 7⟩, ⟨some 2, 9⟩]) ∧
    ¬ ((sampleState 2147483647 [⟨some 1, 7⟩])._vpn_offset ≤ -2147483648 ∧
      _libvpn_get_appclient_fd (sampleState 2147483647 [⟨some 1, 7⟩, ⟨some 2, 9⟩])
        (-2147483648) = (some 2, 9)) := by
  decide

/-- Claim C3, evaluated where it fails.  Descriptor 3 is below the offset,
so it is not found; `recv(3, buf, 10, 2)` calls the original `read(3, buf,
10)` and returns its result 102, not the original `recv` (103), and the
flags are dropped; `send(3, buf, 10, 2)` calls the original `write(3, buf,
10)` and returns 105, not the original `send` (104). -/
theorem recv_send_fall_back_to_read_write :
    _libvpn_get_appclient_fd (sampleState 1024 []) 3 = (none, 3) ∧
    recv (sampleEnv none (remoteStub id) (some 1) true) (sampleState 1024 []) 3 0 10 2 =
      some ⟨102, sampleState 1024 [], [.old_read 3 0 10]⟩ ∧
    (sampleEnv none (remoteStub id) (some 1) true).old_recv 3 0 10 2 = 103 ∧
    send (sampleEnv none (remoteStub id) (some 1) true) (sampleState 1024 []) 3 0 10 2 =
      some ⟨105, sampleState 1024 [], [.old_write 3 0 10]⟩ ∧
    (sampleEnv none (remoteStub id) (some 1) true).old_send 3 0 10 2 = 104 := by
  decide

/-- Claim C4 as amended: once a successful `deregister` has freed the
in-range slot `s`, `resolve` of the stale descriptor `offset + s` reports
not-found, as for an unmapped descriptor, but leaves the freed slot's -1 in
the caller's descriptor; `close`, `read`, `recv`, `send` and `write` on the
stale descriptor therefore take the not-found branch, hand -1 to the
original primitive they fall back to, and leave the state as it was. -/
theorem stale_descriptor_not_found (env : Env) (st st1 : State) (c : Option AppClient)
    (s : Nat) (hoff : INT_MIN ≤ st._vpn_offset) (hfit : st._vpn_offset + s ≤ INT_MAX)
    (hdereg : _libvpn_deregister_fd st c s = (0, st1)) :
    _libvpn_get_appclient_fd st1 (st._vpn_offset + s) = (none, -1) ∧
    ∀ (st0 : State) (buf count : Nat) (flags : Int), _libvpn_init env st0 = some st1 →
      close env st0 (st._vpn_offset + s) =
        some ⟨env.old_close (-1), st1, [.old_close (-1)]⟩ ∧
      read env st0 (st._vpn_offset + s) buf count =
        some ⟨env.old_read (-1) buf count, st1, [.old_read (-1) buf count]⟩ ∧
      recv env st0 (st._vpn_offset + s) buf count flags =
        some ⟨env.old_read (-1) buf count, st1, [.old_read (-1) buf count]⟩ ∧
      send env st0 (st._vpn_offset + s) buf count flags =
        some ⟨env.old_write (-1) buf count, st1, [.old_write (-1) buf count]⟩ ∧
      write env st0 (st._vpn_offset + s) buf count =
        some ⟨env.old_write (-1) buf count, st1, [.old_write (-1) buf count]⟩ := by
  have hs : toSizeT (s : Int) = s := by
    apply toSizeT_natCast
    unfold INT_MIN at hoff
    unfold INT_MAX at hfit
    omega
  have hres : _libvpn_get_appclient_fd st1 (st._vpn_offset + s) = (none, -1) := by
    unfold _libvpn_deregister_fd at hdereg
    rw [if_neg (by omega), hs] at hdereg
    cases hget : st._vpn_clients_fd[s]? with
    | none => simp [hget] at hdereg
    | some e =>
      simp only [hget] at hdereg
      split at hdereg
      · simp at hdereg
      · simp only [Prod.mk.injEq, true_and] at hdereg
        subst hdereg
        have hlt : s < st._vpn_clients_fd.length := by
          rcases Nat.lt_or_ge s st._vpn_clients_fd.length with h | h
          · exact h
          · rw [List.getElem?_eq_none h] at hget
            simp at hget
        unfold _libvpn_get_appclient_fd
        simp only [add_sub_cancel_left, hs]
        rw [if_neg (by omega), List.getElem?_set_self hlt]
  refine ⟨hres, ?_⟩
  intro st0 buf count flags hinit
  refine ⟨?_, ?_, ?_, ?_, ?_⟩
  · simp [close, hinit, hres]
  · simp [read, hinit, hres]
  · simp [recv, hinit, hres]
  · simp [send, hinit, hres]
  · simp [write, hinit, hres]

/-- Claim C4 at a concrete table: offset 1024, slot 0 owned by client 1 and
freed by `deregister(1, 0)`; `resolve(1024)` then reports not-found and
leaves -1 in the descriptor. -/
theorem stale_descriptor_not_found_witness :
    (INT_MIN ≤ (sampleState 1024 [⟨some 1, 0⟩])._vpn_offset ∧
      (sampleState 1024 [⟨some 1, 0⟩])._vpn_offset + ((0 : Nat) : Int) ≤ INT_MAX ∧
      _libvpn_deregister_fd (sampleState 1024 [⟨some 1, 0⟩]) (some 1) ((0 : Nat) : Int) =
        (0, sampleState 1024 [⟨none, -1⟩])) ∧
    _libvpn_get_appclient_fd (sampleState 1024 [⟨none, -1⟩])
        ((sampleState 1024 [⟨some 1, 0⟩])._vpn_offset + ((0 : Nat) : Int)) = (none, -1) :=
  ⟨⟨by decide, by decide, by decide⟩,
    (stale_descriptor_not_found (sampleEnv none (remoteStub id) (some 1) true)
      (sampleState 1024 [⟨some 1, 0⟩]) (sampleState 1024 [⟨none, -1⟩]) (some 1) 0
      (by decide) (by decide) (by decide)).1⟩

/-- Claim C4 as stated fails.  A remote connect answered with the remote
descriptor 0 fills slot 0 and returns 1024; `close(1024)` frees slot 0.  For
the stale descriptor 1024 the lookup then returns `NULL` but does not leave
1024 in the caller's descriptor: it has stored the slot's -1 there, so a
second `close(1024)` calls the original `close(-1)`, not `close(1024)`. -/
theorem stale_descriptor_overwritten :
    connect (sampleEnv none (remoteStub fun _ => 0) (some 1) true) State.initial 3 0 0 =
      some ⟨1024, sampleState 1024 [⟨some 1, 0⟩], [.appclient_call 1 (.connect 3)]⟩ ∧
    close (sampleEnv none (remoteStub fun _ => 0) (some 1) true)
        (sampleState 1024 [⟨some 1, 0⟩]) 1024 =
      some ⟨0, sampleState 1024 [⟨none, -1⟩], [.appclient_call 1 (.close 0)]⟩ ∧
    _libvpn_get_appclient_fd (sampleState 1024 [⟨none, -1⟩]) 1024 = (none, -1) ∧
    _libvpn_get_appclient_fd (sampleState 1024 [⟨none, -1⟩]) 1024 ≠ (none, 1024) ∧
    close (sampleEnv none (remoteStub fun _ => 0) (some 1) true)
        (sampleState 1024 [⟨none, -1⟩]) 1024 =
      some ⟨100, sampleState 1024 [⟨none, -1⟩], [.old_close (-1)]⟩ ∧
    close (sampleEnv none (remoteStub fun _ => 0) (some 1) true)
        (sampleState 1024 [⟨none, -1⟩]) 1024 ≠
      some ⟨100, sampleState 1024 [⟨none, -1⟩], [.old_close 1024]⟩ := by
  decide

/-- Claim C5, where it fails: whenever `_libvpn_get_appclient` misses the
host in the registry, `realloc` succeeds, `appclient_new` fails and the
function returns (its `string_delete(host)` on that exit returns), it
returns `NULL` and the registry is not what it was: `_vpn_clients_cnt` was
incremented before the result of `appclient_new` was tested, so the registry
has one entry more, with a `NULL` client and a name that was never
written. -/
theorem get_appclient_failure_grows_registry (env : Env) (st st1 : State)
    (name namelen : Nat) (host : String) (p : Option AppClient) (released : List Event)
    (hhost : env.getenv "APPSERVER_VPN" = some host)
    (hmiss : findClient host st._vpn_clients = none)
    (hmem : env.realloc (st._vpn_clients.length + 1) = true)
    (hnew : env.appclient_new APPINTERFACE host = none)
    (hret : _libvpn_get_appclient env st name namelen = some (p, st1, released)) :
    p = none ∧ env.string_delete host = true ∧ released = [.string_delete host] ∧
      st1._vpn_clients = st._vpn_clients ++ [⟨env.indeterminate, none⟩] ∧
      st1._vpn_clients.length = st._vpn_clients.length + 1 ∧
      st1._vpn_clients ≠ st._vpn_clients := by
  unfold _libvpn_get_appclient _libvpn_get_remote_host at hret
  simp only [hhost, hmiss, hmem, hnew, Bool.not_true, Bool.false_eq_true, if_false] at hret
  cases hdel : env.string_delete host with
  | false => simp [hdel] at hret
  | true =>
    simp only [hdel, Bool.not_true, Bool.false_eq_true, if_false, Option.some.injEq,
      Prod.mk.injEq] at hret
    obtain ⟨rfl, rfl, rfl⟩ := hret
    refine ⟨rfl, rfl, rfl, rfl, by simp, ?_⟩
    intro h
    have := congrArg List.length h
    simp at this

/-- Claim C5 at a concrete call: the first connect of a process with an
empty registry, `APPSERVER_VPN=vpn1`, a `realloc` that succeeds and an
`appclient_new` that fails returns -1 and leaves one entry in the
registry. -/
theorem get_appclient_failure_grows_registry_witness :
    ((sampleEnv none (remoteStub id) none true).getenv "APPSERVER_VPN" = some "vpn1" ∧
      findClient "vpn1" (⟨true, 1024, [], []⟩ : State)._vpn_clients = none ∧
      (sampleEnv none (remoteStub id) none true).realloc
        ((⟨true, 1024, [], []⟩ : State)._vpn_clients.length + 1) = true ∧
      (sampleEnv none (remoteStub id) none true).appclient_new APPINTERFACE "vpn1" = none ∧
      _libvpn_get_appclient (sampleEnv none (remoteStub id) none true)
          ⟨true, 1024, [], []⟩ 0 0 =
        some (none, ⟨true, 1024, [⟨none, none⟩], []⟩, [.string_delete "vpn1"]) ∧
      connect (sampleEnv none (remoteStub id) none true) State.initial 3 0 0 =
        some ⟨-1, ⟨true, 1024, [⟨none, none⟩], []⟩, [.string_delete "vpn1"]⟩) ∧
    (⟨true, 1024, [⟨none, none⟩], []⟩ : State)._vpn_clients.length =
      (⟨true, 1024, [], []⟩ : State)._vpn_clients.length + 1 :=
  ⟨⟨by decide, by decide, by decide, by decide, by decide, by decide⟩,
    (get_appclient_failure_grows_registry (sampleEnv none (remoteStub id) none true)
      ⟨true, 1024, [], []⟩ ⟨true, 1024, [⟨none, none⟩], []⟩ 0 0 "vpn1" none
      [.string_delete "vpn1"] (by decide) (by decide) (by decide) (by decide)
      (by decide)).2.2.2.2.1⟩

/-- Claim C6, evaluated where it fails.  The remote "close" behind
`close(1024)` completes with the result 5, which is not negative; `close`
tests `ret != 0`, so the error translation is called all the same, with the
input -5, which is not a positive code; its result -1 is returned and the
slot stays owned.  With the same result 5 the remote "send" behind
`send(1024, buf, 10, 0)` is a success and nothing is translated, and with
the result -5 `close` translates the code 5. -/
theorem close_translates_positive_result :
    (sampleEnv none (remoteConst 5) (some 1) true).appclient_call 1 (.close 7) = some 5 ∧
    close (sampleEnv none (remoteConst 5) (some 1) true)
        (sampleState 1024 [⟨some 1, 7⟩]) 1024 =
      some ⟨-1, sampleState 1024 [⟨some 1, 7⟩],
        [.appclient_call 1 (.close 7), ._vpn_errno (-5)]⟩ ∧
    send (sampleEnv none (remoteConst 5) (some 1) true)
        (sampleState 1024 [⟨some 1, 7⟩]) 1024 0 10 0 =
      some ⟨5, sampleState 1024 [⟨some 1, 7⟩], [.appclient_call 1 (.send 7 0 10 0)]⟩ ∧
    close (sampleEnv none (remoteConst (-5)) (some 1) true)
        (sampleState 1024 [⟨some 1, 7⟩]) 1024 =
      some ⟨-1, sampleState 1024 [⟨some 1, 7⟩],
        [.appclient_call 1 (.close 7), ._vpn_errno 5]⟩ := by
  decide

/-- Claim C7 as amended, for a table whose slots hold -1 or a non-negative
remote descriptor and as long as the offset plus the slot index does not
exceed `INT_MAX`.  A successful `register` returns `offset + i` where, if
some slot is free, `i` is the lowest free slot and the table keeps its
length, and otherwise `i` is the previous length and the table grows by one
slot.  A `register` that follows a successful `deregister` of slot `i`,
with no free slot below `i`, succeeds and returns `offset + i`. -/
theorem register_fd_slot (env : Env) (st : State) (hoff : INT_MIN ≤ st._vpn_offset)
    (hok : SlotsOk st._vpn_clients_fd) :
    (∀ (appclient : Option AppClient) (rfd v : Int) (st' : State),
      st._vpn_offset + firstFree st._vpn_clients_fd ≤ INT_MAX →
      _libvpn_register_fd env st appclient rfd = (0, v, st') →
      ∃ i : Nat, v = st._vpn_offset + i ∧
        ((∃ j, IsFree st._vpn_clients_fd j) →
          IsLowestFree st._vpn_clients_fd i ∧
            st'._vpn_clients_fd.length = st._vpn_clients_fd.length) ∧
        ((¬ ∃ j, IsFree st._vpn_clients_fd j) →
          i = st._vpn_clients_fd.length ∧
            st'._vpn_clients_fd.length = st._vpn_clients_fd.length + 1)) ∧
    (∀ (c appclient : Option AppClient) (rfd : Int) (i : Nat) (st1 : State),
      st._vpn_offset + i ≤ INT_MAX →
      _libvpn_deregister_fd st c i = (0, st1) →
      (∀ j, j < i → ¬ IsFree st._vpn_clients_fd j) →
      ∃ st2, _libvpn_register_fd env st1 appclient rfd = (0, st._vpn_offset + i, st2)) := by
  constructor
  · intro appclient rfd v st' hfit hreg
    have hv : toInt32 (st._vpn_offset + firstFree st._vpn_clients_fd) =
        st._vpn_offset + firstFree st._vpn_clients_fd :=
      toInt32_of_range _ (by omega) hfit
    refine ⟨firstFree st._vpn_clients_fd, ?_, ?_, ?_⟩
    · unfold _libvpn_register_fd at hreg
      simp only [hv] at hreg
      split at hreg
      · simp only [Prod.mk.injEq, true_and] at hreg
        exact hreg.1.symm
      · split at hreg
        · simp at hreg
        · simp only [Prod.mk.injEq, true_and] at hreg
          exact hreg.1.symm
    · rintro ⟨j, hj⟩
      obtain ⟨x, hx, hxfd⟩ := (isFree_iff _ _).1 hj
      have hle := firstFree_le_of_neg _ j x hx (by omega)
      have hjlt : j < st._vpn_clients_fd.length := by
        rcases Nat.lt_or_ge j st._vpn_clients_fd.length with h | h
        · exact h
        · rw [List.getElem?_eq_none h] at hx
          simp at hx
      have hlt : firstFree st._vpn_clients_fd < st._vpn_clients_fd.length := by omega
      obtain ⟨e, he, heneg⟩ := firstFree_spec _ hlt
      have hmem : e ∈ st._vpn_clients_fd := List.getElem?_mem he
      have hefd : e.fd = -1 := by
        rcases hok e hmem with h | h
        · exact h
        · omega
      refine ⟨⟨(isFree_iff _ _).2 ⟨e, he, hefd⟩, ?_⟩, ?_⟩
      · intro k hk hfree
        obtain ⟨y, hy, hyfd⟩ := (isFree_iff _ _).1 hfree
        have := firstFree_min _ k y hk hy
        omega
      · unfold _libvpn_register_fd at hreg
        simp only [hv, hlt, if_true, Prod.mk.injEq, true_and] at hreg
        rw [← hreg.2]
        simp
    · intro hnone
      have hge : ¬ firstFree st._vpn_clients_fd < st._vpn_clients_fd.length := by
        intro hlt
        obtain ⟨e, he, heneg⟩ := firstFree_spec _ hlt
        have hmem : e ∈ st._vpn_clients_fd := List.getElem?_mem he
        have hefd : e.fd = -1 := by
          rcases hok e hmem with h | h
          · exact h
          · omega
        exact hnone ⟨_, (isFree_iff _ _).2 ⟨e, he, hefd⟩⟩
      have hlen : firstFree st._vpn_clients_fd = st._vpn_clients_fd.length :=
        Nat.le_antisymm (firstFree_le_length _) (by omega)
      refine ⟨hlen, ?_⟩
      unfold _libvpn_register_fd at hreg
      simp only [hv, hge, if_false] at hreg
      split at hreg
      · simp at hreg
      · simp only [Prod.mk.injEq, true_and] at hreg
        rw [← hreg.2]
        simp
  · intro c appclient rfd i st1 hfit hdereg hlow
    have hi32 : toSizeT (i : Int) = i := by
      apply toSizeT_natCast
      unfold INT_MIN at hoff
      unfold INT_MAX at hfit
      omega
    unfold _libvpn_deregister_fd at hdereg
    rw [if_neg (by omega), hi32] at hdereg
    cases hget : st._vpn_clients_fd[i]? with
    | none => simp [hget] at hdereg
    | some e =>
      simp only [hget] at hdereg
      split at hdereg
      · simp at hdereg
      · simp only [Prod.mk.injEq, true_and] at hdereg
        subst hdereg
        have hilt : i < st._vpn_clients_fd.length := by
          rcases Nat.lt_or_ge i st._vpn_clients_fd.length with h | h
          · exact h
          · rw [List.getElem?_eq_none h] at hget
            simp at hget
        have hff : firstFree (st._vpn_clients_fd.set i ⟨none, -1⟩) = i := by
          apply firstFree_eq _ i ⟨none, -1⟩
          · exact List.getElem?_set_self hilt
          · simp
          · intro j x hj hx
            rw [List.getElem?_set_ne (by omega)] at hx
            have hmem : x ∈ st._vpn_clients_fd := List.getElem?_mem hx
            rcases hok x hmem with h | h
            · exact absurd ((isFree_iff _ _).2 ⟨x, hx, h⟩) (hlow j hj)
            · exact h
        unfold _libvpn_register_fd
        simp only [hff, List.length_set, hilt, if_true]
        rw [toInt32_of_range _ (by omega) hfit]
        exact ⟨_, rfl⟩

/-- Claim C7 at a concrete table: offset 1024, slots 0 and 2 owned, slot 1
free; `register` returns 1025 and the table keeps its three slots. -/
theorem register_fd_slot_witness :
    (INT_MIN ≤ (sampleState 1024 [⟨some 1, 5⟩, ⟨none, -1⟩, ⟨some 1, 6⟩])._vpn_offset ∧
      SlotsOk (sampleState 1024 [⟨some 1, 5⟩, ⟨none, -1⟩, ⟨some 1, 6⟩])._vpn_clients_fd ∧
      (sampleState 1024 [⟨some 1, 5⟩, ⟨none, -1⟩, ⟨some 1, 6⟩])._vpn_offset +
        firstFree (sampleState 1024 [⟨some 1, 5⟩, ⟨none, -1⟩, ⟨some 1, 6⟩])._vpn_clients_fd
          ≤ INT_MAX ∧
      _libvpn_register_fd (sampleEnv none (remoteStub id) (some 1) true)
        (sampleState 1024 [⟨some 1, 5⟩, ⟨none, -1⟩, ⟨some 1, 6⟩]) (some 2) 9 =
        (0, 1025, sampleState 1024 [⟨some 1, 5⟩, ⟨some 2, 9⟩, ⟨some 1, 6⟩])) ∧
    ∃ i : Nat,
      (1025 : Int) =
        (sampleState 1024 [⟨some 1, 5⟩, ⟨none, -1⟩, ⟨some 1, 6⟩])._vpn_offset + i ∧
      ((∃ j, IsFree (sampleState 1024 [⟨some 1, 5⟩, ⟨none, -1⟩, ⟨some 1, 6⟩])._vpn_clients_fd j) →
        IsLowestFree (sampleState 1024 [⟨some 1, 5⟩, ⟨none, -1⟩, ⟨some 1, 6⟩])._vpn_clients_fd i ∧
          (sampleState 1024 [⟨some 1, 5⟩, ⟨some 2, 9⟩, ⟨some 1, 6⟩])._vpn_clients_fd.length =
            (sampleState 1024 [⟨some 1, 5⟩, ⟨none, -1⟩, ⟨some 1, 6⟩])._vpn_clients_fd.length) ∧
      ((¬ ∃ j, IsFree (sampleState 1024 [⟨some 1, 5⟩, ⟨none, -1⟩, ⟨some 1, 6⟩])._vpn_clients_fd j) →
        i = (sampleState 1024 [⟨some 1, 5⟩, ⟨none, -1⟩, ⟨some 1, 6⟩])._vpn_clients_fd.length ∧
          (sampleState 1024 [⟨some 1, 5⟩, ⟨some 2, 9⟩, ⟨some 1, 6⟩])._vpn_clients_fd.length =
            (sampleState 1024 [⟨some 1, 5⟩, ⟨none, -1⟩, ⟨some 1, 6⟩])._vpn_clients_fd.length + 1) :=
  ⟨⟨by decide, by decide, by decide, by decide⟩,
    (register_fd_slot (sampleEnv none (remoteStub id) (some 1) true)
      (sampleState 1024 [⟨some 1, 5⟩, ⟨none, -1⟩, ⟨some 1, 6⟩]) (by decide) (by decide)).1
      (some 2) 9 1025 (sampleState 1024 [⟨some 1, 5⟩, ⟨some 2, 9⟩, ⟨some 1, 6⟩])
      (by decide) (by decide)⟩

/-- Claim C7 as stated fails in two places.  First, with offset
`INT_MAX - 1` and both slots owned, `register` appends slot 2 and returns
`INT_MAX + 1` converted to `int32_t`, that is `INT_MIN`, not `offset + 2`.
Second, the scan takes every negative `remote_fd` for a free slot: in a
table whose only slot holds -2 no slot has `remote_fd = -1`, yet `register`
reuses slot 0 and the table does not grow. -/
theorem register_fd_slot_fails :
    (_libvpn_register_fd (sampleEnv (some 2147483646) (remoteStub id) (some 1) true)
        (sampleState 2147483646 [⟨some 1, 3⟩, ⟨some 1, 4⟩]) (some 1) 9 =
      (0, -2147483648, sampleState 2147483646 [⟨some 1, 3⟩, ⟨some 1, 4⟩, ⟨some 1, 9⟩]) ∧
      (-2147483648 : Int) ≠
        (sampleState 2147483646 [⟨some 1, 3⟩, ⟨some 1, 4⟩])._vpn_offset + 2) ∧
    ((∀ j, j < 1 → ¬ IsFree (sampleState 1024 [⟨some 1, -2⟩])._vpn_clients_fd j) ∧
      _libvpn_register_fd (sampleEnv none (remoteStub id) (some 1) true)
        (sampleState 1024 [⟨some 1, -2⟩]) (some 1) 9 =
      (0, 1024, sampleState 1024 [⟨some 1, 9⟩])) := by
  decide


/-- Claim C8: for an `int32_t` slot argument `s`, if `s` is out of range
(negative, or not below the table length) or the slot at `s` is owned by a
client other than `c`, then `deregister(c, s)` returns -1 and leaves the
whole state unchanged; and whenever `deregister(c, s)` changes a slot, that
slot is slot `s` and it was owned by `c`. -/
theorem deregister_fd_foreign (st : State) (c : Option AppClient) (s : Int)
    (hs : INT_MIN ≤ s ∧ s ≤ INT_MAX) :
    ((s < 0 ∨ (st._vpn_clients_fd.length : Int) ≤ s ∨
        ∃ e, st._vpn_clients_fd[s.toNat]? = some e ∧ e.appclient ≠ c) →
      _libvpn_deregister_fd st c s = (-1, st)) ∧
    (∀ i : Nat,
      (_libvpn_deregister_fd st c s).2._vpn_clients_fd[i]? ≠ st._vpn_clients_fd[i]? →
      (i : Int) = s ∧ ∃ e, st._vpn_clients_fd[i]? = some e ∧ e.appclient = c) := by
  constructor
  · intro h
    unfold _libvpn_deregister_fd
    by_cases hneg : s < 0
    · simp [hneg]
    · have hnn : 0 ≤ s := by omega
      rw [if_neg hneg, toSizeT_of_int32 s hnn hs.2]
      rcases h with h | h | ⟨e, he, hne⟩
      · omega
      · have : st._vpn_clients_fd[s.toNat]? = none :=
          List.getElem?_eq_none (by omega)
        simp [this]
      · simp [he, hne]
  · intro i hi
    unfold _libvpn_deregister_fd at hi
    by_cases hneg : s < 0
    · simp [hneg] at hi
    · have hnn : 0 ≤ s := by omega
      rw [if_neg hneg, toSizeT_of_int32 s hnn hs.2] at hi
      cases hget : st._vpn_clients_fd[s.toNat]? with
      | none => simp [hget] at hi
      | some e =>
        by_cases hown : e.appclient = c
        · simp only [hget, hown, ne_eq, not_true_eq_false, if_false] at hi
          by_cases hidx : s.toNat = i
          · subst hidx
            exact ⟨by omega, e, hget, hown⟩
          · exact absurd (List.getElem?_set_ne hidx) hi
        · simp [hget, hown] at hi

/-- Claim C8 at a concrete table: slot 0 is owned by client 1, and
`deregister(2, 0)` returns -1 and changes nothing. -/
theorem deregister_fd_foreign_witness :
    ((INT_MIN ≤ (0 : Int) ∧ (0 : Int) ≤ INT_MAX) ∧
      (sampleState 1024 [⟨some 1, 5⟩])._vpn_clients_fd[(0 : Int).toNat]? =
        some ⟨some 1, 5⟩ ∧
      (⟨some 1, 5⟩ : VPNAppClientFD).appclient ≠ some 2) ∧
    _libvpn_deregister_fd (sampleState 1024 [⟨some 1, 5⟩]) (some 2) 0 =
      (-1, sampleState 1024 [⟨some 1, 5⟩]) :=
  ⟨⟨by decide, by decide, by decide⟩,
    (deregister_fd_foreign (sampleState 1024 [⟨some 1, 5⟩]) (some 2) 0 (by decide)).1
      (Or.inr (Or.inr ⟨⟨some 1, 5⟩, by decide, by decide⟩))⟩

/-- Claim C9 as amended.  For every table and every descriptor `fd` below
the offset, `resolve(fd)` reports not-found and leaves `fd` unchanged, and
`close`, `read`, `recv`, `send` and `write` on `fd` call an original
primitive (`close`, `read`, `read`, `write`, `write`) with `fd` and leave
the table as it was.  Every descriptor returned by a successful `register`
is at least the offset, as long as the offset plus the index of the chosen
slot does not exceed `INT_MAX`. -/
theorem below_offset_delegated (env : Env) (st0 st : State)
    (hinit : _libvpn_init env st0 = some st) :
    (∀ (fd : Int) (buf count : Nat) (flags : Int), fd < st._vpn_offset →
      _libvpn_get_appclient_fd st fd = (none, fd) ∧
      close env st0 fd = some ⟨env.old_close fd, st, [.old_close fd]⟩ ∧
      read env st0 fd buf count =
        some ⟨env.old_read fd buf count, st, [.old_read fd buf count]⟩ ∧
      recv env st0 fd buf count flags =
        some ⟨env.old_read fd buf count, st, [.old_read fd buf count]⟩ ∧
      send env st0 fd buf count flags =
        some ⟨env.old_write fd buf count, st, [.old_write fd buf count]⟩ ∧
      write env st0 fd buf count =
        some ⟨env.old_write fd buf count, st, [.old_write fd buf count]⟩ ∧
      st._vpn_clients_fd = st0._vpn_clients_fd) ∧
    (∀ (appclient : Option AppClient) (rfd v : Int) (st' : State),
      INT_MIN ≤ st._vpn_offset →
      st._vpn_offset + firstFree st._vpn_clients_fd ≤ INT_MAX →
      _libvpn_register_fd env st appclient rfd = (0, v, st') →
      st._vpn_offset ≤ v) := by
  constructor
  · intro fd buf count flags hlt
    have hres : _libvpn_get_appclient_fd st fd = (none, fd) := by
      simp [_libvpn_get_appclient_fd, hlt]
    refine ⟨hres, ?_, ?_, ?_, ?_, ?_, (init_tables env st0 st hinit).2.1⟩
    · simp [close, hinit, hres]
    · simp [read, hinit, hres]
    · simp [recv, hinit, hres]
    · simp [send, hinit, hres]
    · simp [write, hinit, hres]
  · intro appclient rfd v st' hoff hfit hreg
    have hv : toInt32 (st._vpn_offset + firstFree st._vpn_clients_fd) =
        st._vpn_offset + firstFree st._vpn_clients_fd :=
      toInt32_of_range _ (by omega) hfit
    unfold _libvpn_register_fd at hreg
    simp only [hv] at hreg
    split at hreg
    · simp only [Prod.mk.injEq, true_and] at hreg
      omega
    · split at hreg
      · simp at hreg
      · simp only [Prod.mk.injEq, true_and] at hreg
        omega

/-- Claim C9 at a concrete call: the first call of the process is
`close(3)`; the offset becomes the hard limit 4096, descriptor 3 is below
it and the original `close(3)` is called. -/
theorem below_offset_delegated_witness :
    (_libvpn_init (sampleEnv (some 4096) (remoteStub id) (some 1) true) State.initial =
        some ⟨true, 4096, [], []⟩ ∧
      (3 : Int) < (⟨true, 4096, [], []⟩ : State)._vpn_offset) ∧
    close (sampleEnv (some 4096) (remoteStub id) (some 1) true) State.initial 3 =
      some ⟨(sampleEnv (some 4096) (remoteStub id) (some 1) true).old_close 3,
        ⟨true, 4096, [], []⟩, [.old_close 3]⟩ :=
  ⟨⟨by decide, by decide⟩,
    ((below_offset_delegated (sampleEnv (some 4096) (remoteStub id) (some 1) true)
      State.initial ⟨true, 4096, [], []⟩ (by decide)).1 3 0 0 0 (by decide)).2.1⟩

/-- Claim C9 as stated fails when the sum leaves the range of `int32_t`.  In
a process whose hard limit on open files is `INT_MAX` the offset is
`INT_MAX`; the first remote connect returns the virtual descriptor
`INT_MAX`, and the second one registers slot 1 and returns `INT_MIN`, a
value below the offset. -/
theorem connect_returns_below_offset :
    connect (sampleEnv (some 2147483647) (remoteStub fun fd => fd + 4) (some 1) true)
        State.initial 3 0 0 =
      some ⟨2147483647, sampleState 2147483647 [⟨some 1, 7⟩],
        [.appclient_call 1 (.connect 3)]⟩ ∧
    connect (sampleEnv (some 2147483647) (remoteStub fun fd => fd + 4) (some 1) true)
        (sampleState 2147483647 [⟨some 1, 7⟩]) 4 0 0 =
      some ⟨-2147483648, sampleState 2147483647 [⟨some 1, 7⟩, ⟨some 1, 8⟩],
        [.string_delete "vpn1", .appclient_call 1 (.connect 4)]⟩ ∧
    (_libvpn_register_fd (sampleEnv (some 2147483647) (remoteStub fun fd => fd + 4) (some 1) true)
        (sampleState 2147483647 [⟨some 1, 7⟩]) (some 1) 8).1 = 0 ∧
    (-2147483648 : Int) < (sampleState 2147483647 [⟨some 1, 7⟩])._vpn_offset := by
  decide

/-- Claim C10, evaluated where it fails.  Two remote connects answered with
the remote descriptors 1 and 7 return the virtual descriptors 1024 and 1025.
Then `close(1024)` issues the remote close of 1, which reports 0, and hands
the remote descriptor 1 to `_libvpn_deregister_fd` as the slot index: slot
1, the slot of 1025, is freed, so `resolve(1025)` goes from `(1, 7)` to
not-found, while slot 0 stays owned. -/
theorem close_frees_other_slot :
    connect (sampleEnv none (remoteStub fun fd => 2 * fd - 5) (some 1) true)
        State.initial 3 0 0 =
      some ⟨1024, sampleState 1024 [⟨some 1, 1⟩], [.appclient_call 1 (.connect 3)]⟩ ∧
    connect (sampleEnv none (remoteStub fun fd => 2 * fd - 5) (some 1) true)
        (sampleState 1024 [⟨some 1, 1⟩]) 6 0 0 =
      some ⟨1025, sampleState 1024 [⟨some 1, 1⟩, ⟨some 1, 7⟩],
        [.string_delete "vpn1", .appclient_call 1 (.connect 6)]⟩ ∧
    _libvpn_get_appclient_fd (sampleState 1024 [⟨some 1, 1⟩, ⟨some 1, 7⟩]) 1025 =
      (some 1, 7) ∧
    close (sampleEnv none (remoteStub fun fd => 2 * fd - 5) (some 1) true)
        (sampleState 1024 [⟨some 1, 1⟩, ⟨some 1, 7⟩]) 1024 =
      some ⟨0, sampleState 1024 [⟨some 1, 1⟩, ⟨none, -1⟩],
        [.appclient_call 1 (.close 1)]⟩ ∧
    _libvpn_get_appclient_fd (sampleState 1024 [⟨some 1, 1⟩, ⟨none, -1⟩]) 1025 =
      (none, -1) ∧
    _libvpn_get_appclient_fd (sampleState 1024 [⟨some 1, 1⟩, ⟨none, -1⟩]) 1024 =
      (some 1, 1) := by
  decide

end VPN
